import Mathlib

/-!
# TrustDog deal lifecycle: shallow embedding and verification

This file embeds the core deal-lifecycle logic of the trustdog-dao worker in
Lean 4 and proves (or refutes) the frozen specification claims about it.

The embedding covers, faithfully to the TypeScript source:
  * the orchestrator callback handler (payload parsing/normalisation, the
    status decision branches, the unconditional deal update, review creation
    and the automatic-refund trigger);
  * the scheduler's duration-completion sweep (`processVerificationCompletion`);
  * the settlement executors (`processPayoutInternal`, `processRefund`) and
    the escrow-event ledger written by the fund-escrow handler;
  * the verification-schedule ladder built by the submit-post handler;
  * the cancel-deal handler.

JavaScript numbers are modelled as `ℚ`; instants are milliseconds since epoch
as `ℚ` (`Date.getTime()`).  Nullable columns and optional payload fields are
`Option`; the JavaScript `x || d` default (which treats `0`, `""`, `null` and
`undefined` as falsy) is modelled by `jsOrNum` / `jsOrStr`.
-/

namespace TrustDog

/-- Deal lifecycle statuses, as the string enum used across the source. -/
inductive DealStatus
  | PendingAcceptance
  | PendingFunding
  | PendingVerification
  | Verifying
  | Completed
  | Failed
  | Cancelled
  deriving DecidableEq, Repr

/-- JavaScript `x || d` for numbers: `null`/`undefined`/`0` fall back to `d`. -/
def jsOrNum (o : Option ℚ) (d : ℚ) : ℚ :=
  match o with
  | some v => if v = 0 then d else v
  | none => d

/-- JavaScript `x || d` for strings: `null`/`undefined`/`""` fall back to `d`. -/
def jsOrStr (o : Option String) (d : String) : String :=
  match o with
  | some s => if s = "" then d else s
  | none => d

/-- JavaScript truthiness of a possibly-missing string. -/
def strTruthy (o : Option String) : Bool :=
  match o with
  | some s => s ≠ ""
  | none => false

/-- JavaScript `x >= b` where `x` may be `null`/`undefined` (both compare false
for positive `b`, as in `deal.verification_score >= 80`). -/
def jsGe (o : Option ℚ) (b : ℚ) : Bool :=
  match o with
  | some v => decide (b ≤ v)
  | none => false

/-! ## Orchestrator callback payload (part_002, lines 269–312)

The callback body is heterogeneous JSON.  We model exactly the fields the
handler reads; every access in the source is optional-chained, which `Option`
mirrors. -/

/-- `data.analysis.proof_verification` of the new callback format. -/
structure ProofVerification where
  overall_confidence : Option ℚ
  requirements_met : Option (List String)
  requirements_failed : Option (List String)
  deriving DecidableEq, Repr

/-- `data.analysis` of the new callback format. -/
structure Analysis where
  overall_score : Option ℚ
  proof_verification : Option ProofVerification
  deriving DecidableEq, Repr

/-- `data` of the new callback format. -/
structure CallbackData where
  deal_id : Option String
  analysis : Option Analysis
  deriving DecidableEq, Repr

/-- The callback request body: new format (`status`, `data`) and legacy
format (`deal_id`, `verification_status`, `overall_score`) fields, plus the
`error_details.error_message` read in the error branch. -/
structure CallbackPayload where
  status : Option String
  data : Option CallbackData
  deal_id : Option String
  verification_status : Option String
  overall_score : Option ℚ
  error_message : Option String
  deriving DecidableEq, Repr

/-- `requestBody.data?.analysis` -/
def CallbackPayload.analysisOf (b : CallbackPayload) : Option Analysis :=
  b.data.bind (·.analysis)

/-- `requestBody.data?.analysis?.proof_verification?.overall_confidence` -/
def CallbackPayload.pvConfidence (b : CallbackPayload) : Option ℚ :=
  (b.analysisOf.bind (·.proof_verification)).bind (·.overall_confidence)

/-- `requestBody.data?.analysis?.proof_verification?.requirements_failed` -/
def CallbackPayload.pvRequirementsFailed (b : CallbackPayload) : Option (List String) :=
  (b.analysisOf.bind (·.proof_verification)).bind (·.requirements_failed)

/-- Result of the handler's format detection (part_002, lines 289–307):
`dealId`, `verificationStatus`, `overallScore` as the handler's local
variables after the two format branches.  The initial values are
`verificationStatus = "error"` and `overallScore = 0`. -/
structure ParsedCallback where
  dealId : Option String
  verificationStatus : String
  overallScore : ℚ
  deriving DecidableEq, Repr

/-- Payload normalisation, part_002 lines 289–307.  New format requires a
truthy `data.deal_id`; legacy format requires a truthy top-level `deal_id`;
otherwise the initial values `("error", 0)` stand and the handler will
return 400. -/
def parseCallback (b : CallbackPayload) : ParsedCallback :=
  if b.data.isSome ∧ strTruthy (b.data.bind (·.deal_id)) then
    { dealId := b.data.bind (·.deal_id)
      verificationStatus := if b.status = some "completed" then "completed" else "failed"
      overallScore := jsOrNum (b.analysisOf.bind (·.overall_score)) 0 }
  else if strTruthy b.deal_id then
    { dealId := b.deal_id
      verificationStatus := jsOrStr b.verification_status "error"
      overallScore := jsOrNum b.overall_score 0 }
  else
    { dealId := none, verificationStatus := "error", overallScore := 0 }

/-! ## Callback status decision (part_002, lines 426–466) -/

/-- The handler's decision: `finalStatus`, `failureReason`,
`shouldCreateHITLReview`. -/
structure CallbackDecision where
  finalStatus : DealStatus
  failureReason : Option String
  shouldCreateHITLReview : Bool
  deriving DecidableEq, Repr

/-- `requestBody.data?.analysis?.proof_verification?.requirements_failed || []`
(a present empty array is truthy in JS, so `getD` is exact). -/
def requirementsFailedOf (b : CallbackPayload) : List String :=
  b.pvRequirementsFailed.getD []

/-- `requestBody.data?.analysis?.proof_verification?.overall_confidence || score` -/
def confidenceOf (b : CallbackPayload) (score : ℚ) : ℚ :=
  jsOrNum b.pvConfidence score

/-- The status decision branches, part_002 lines 426–466. -/
def decideCallback (b : CallbackPayload) (vs : String) (score : ℚ) : CallbackDecision :=
  if vs = "error" then
    { finalStatus := .Verifying
      failureReason := some ("Orchestrator error: " ++ jsOrStr b.error_message "Unknown error")
      shouldCreateHITLReview := true }
  else if vs = "failed" then
    { finalStatus := .Failed
      failureReason := some ("Verification failed - Score: " ++ toString score ++ "/100")
      shouldCreateHITLReview := false }
  else
    let confidence := confidenceOf b score
    let reqFailed := requirementsFailedOf b
    if reqFailed ≠ [] then
      { finalStatus := .Failed
        failureReason := some ("Verification requirements not met: " ++ String.intercalate ", " reqFailed)
        shouldCreateHITLReview := false }
    else if 80 ≤ score then
      { finalStatus := .Verifying, failureReason := none, shouldCreateHITLReview := false }
    else if 60 ≤ score ∨ confidence < 70 then
      { finalStatus := .Verifying, failureReason := none, shouldCreateHITLReview := true }
    else
      { finalStatus := .Failed
        failureReason := some ("Low verification confidence: " ++ toString score ++ "/100")
        shouldCreateHITLReview := false }

/-! ## The deal row and the callback's deal update (part_002, lines 543–568) -/

/-- A `deals` row, restricted to the columns the embedded handlers touch.
`orchestrator_result` holds the raw callback payload the handler persists. -/
structure Deal where
  id : String
  advertiser_id : String
  creator_id : Option String
  status : DealStatus
  failure_reason : Option String
  verification_score : Option ℚ
  orchestrator_result : Option CallbackPayload
  last_verification_at : Option ℚ
  posted_at : Option ℚ
  cancelled_at : Option ℚ
  deriving DecidableEq, Repr

/-- The deal update of the callback handler (part_002, lines 543–568).  The
update is keyed on `id` ONLY — there is no condition on the deal's current
status — and sets `status`, `orchestrator_result`, `last_verification_at` and
`verification_score` unconditionally; `failure_reason` is included only when
the decided status is `Failed` (the conditional object spread).
`orchestrator_result` is modelled as the received payload; the
display-only enrichment of the stored blob (part_002, lines 468–541, which
rewrites analysis text inside `data` for error/low-score cases before
serialising) is abstracted away, since no claim depends on the content of
the stored blob, only on its being recorded. -/
def applyCallbackToDeal (deal : Deal) (b : CallbackPayload) (dec : CallbackDecision)
    (score : ℚ) (now : ℚ) : Deal :=
  { deal with
    status := dec.finalStatus
    failure_reason := if dec.finalStatus = .Failed then dec.failureReason else deal.failure_reason
    orchestrator_result := some b
    last_verification_at := some now
    verification_score := some score }

/-! ## Review creation in the callback (part_002, lines 620–660 and 691–747) -/

/-- A `reviews` row, restricted to the columns the two creation sites write.
The direct insert at lines 629–637 writes NO `reason_code`/`run_id`;
`HITLService.createReview` (part_004, lines 67–82) writes `reason_code` from
its `reason` argument and `priority` from its `severity`. -/
structure ReviewRow where
  deal_id : String
  reason_code : Option String
  priority : String
  deriving DecidableEq, Repr

/-- The review rows inserted by one callback invocation.

Site 1 (lines 621–660): if `shouldCreateHITLReview`, a direct insert with
`priority` from the recomputed confidence and no reason code.

Site 2 (lines 691–747): if the decided status is `Verifying` AND the
`HITL_ENABLED` env flag is the string `true`, `HITLService.createReview` with
`reason` `ORCHESTRATOR_ERROR` (error outcome) or `MANUAL_REVIEW_NEEDED`, and
`severity` `high` when the score is below 60, else `medium`. -/
def callbackReviews (b : CallbackPayload) (vs : String) (score : ℚ)
    (dec : CallbackDecision) (dealId : String) (hitlEnabled : Bool) : List ReviewRow :=
  (if dec.shouldCreateHITLReview then
    [{ deal_id := dealId
       reason_code := none
       priority := if confidenceOf b score < 50 then "high" else "medium" }]
  else []) ++
  (if dec.finalStatus = .Verifying ∧ hitlEnabled then
    [{ deal_id := dealId
       reason_code := some (if vs = "error" then "ORCHESTRATOR_ERROR" else "MANUAL_REVIEW_NEEDED")
       priority := if score < 60 then "high" else "medium" }]
  else [])

/-- HTTP-level outcome of the callback endpoint. -/
inductive CallbackResponse
  | unauthorized
  | badRequest (msg : String)
  | notFound (msg : String)
  | okTestDeal (score : ℚ)
  | ok (deal_status : DealStatus) (verification_score : ℚ)
  deriving DecidableEq, Repr

/-- Aggregate result of one (authenticated) callback invocation. -/
structure CallbackOutcome where
  response : CallbackResponse
  deal : Option Deal
  reviews : List ReviewRow
  refundTriggered : Bool
  deriving DecidableEq, Repr

/-- The authenticated callback handler, part_002 lines 269–753, as a function
of the stored deal (the `deals` lookup by id) and the request body.  After a
successful deal update, `processAutomaticRefund` is invoked exactly when the
decided status is `Failed` (lines 664–680); the handler never triggers a
payout.  The response for a processed deal is
`{success, deal_status, verification_score}` (lines 749–753). -/
def callbackHandler (stored : Option Deal) (b : CallbackPayload) (now : ℚ)
    (hitlEnabled : Bool) : CallbackOutcome :=
  let p := parseCallback b
  match p.dealId with
  | none => { response := .badRequest "Missing deal_id in callback"
              deal := stored, reviews := [], refundTriggered := false }
  | some did =>
    if did.startsWith "test-deal-" then
      { response := .okTestDeal p.overallScore
        deal := stored, reviews := [], refundTriggered := false }
    else
      match stored with
      | none => { response := .notFound "Deal not found"
                  deal := none, reviews := [], refundTriggered := false }
      | some deal =>
        let dec := decideCallback b p.verificationStatus p.overallScore
        { response := .ok dec.finalStatus p.overallScore
          deal := some (applyCallbackToDeal deal b dec p.overallScore now)
          reviews := callbackReviews b p.verificationStatus p.overallScore dec deal.id hitlEnabled
          refundTriggered := decide (dec.finalStatus = .Failed) }

/-! ## Settlement ledger rows -/

/-- An `escrow_events` ledger row (columns read by the settlement helpers). -/
structure EscrowEvent where
  deal_id : String
  event_type : String
  payment_method : Option String
  amount : ℚ
  deriving DecidableEq, Repr

/-- The escrow event written by the Solana fund-escrow handler
(part_006, lines 326–336): `event_type` is the string `Created`. -/
def fundEscrowEvent (dealId : String) (totalReceived : ℚ) : EscrowEvent :=
  { deal_id := dealId, event_type := "Created", payment_method := some "solana"
    amount := totalReceived }

/-- A `payouts` row (columns written by `processPayoutInternal`). -/
structure PayoutRow where
  deal_id : String
  method : String
  status : String
  amount : ℚ
  deriving DecidableEq, Repr

/-- A `refunds` row (columns read/written by the refund helpers). -/
structure RefundRow where
  deal_id : String
  status : String
  amount : ℚ
  reason : String
  deriving DecidableEq, Repr

/-- Non-failed payout rows recorded for a deal. -/
def nonFailedPayouts (payouts : List PayoutRow) (dealId : String) : List PayoutRow :=
  payouts.filter fun p => p.deal_id = dealId ∧ p.status ≠ "failed"

/-! ## `processPayoutInternal` (part_006, lines 362–472)

The deal/creator view the function selects, and the function itself.  It
checks the deal status and the creator wallet and the platform balance, sends
the transfer, and appends a `Completed` payout row.  It performs NO lookup of
existing payout rows for the deal. -/

/-- `Math.round` (half away from zero is irrelevant here; arguments are
positive): `⌊q + 1/2⌋`. -/
def jsRound (q : ℚ) : ℤ := ⌊q + 1/2⌋

/-- The columns `processPayoutInternal` selects for the deal. -/
structure SolPayoutDeal where
  id : String
  status : DealStatus
  amount : ℚ
  creator_wallet : Option String
  deriving DecidableEq, Repr

/-- Rent-exempt minimum plus transaction fee reserved by the payout path. -/
def solReserve : ℤ := 890880 + 5000

/-- `processPayoutInternal`, part_006 lines 362–472: on success the payouts
table gains one row with status `Completed`; errors are thrown (`Except.error`).
No existing-payout check is made before acting. -/
def processPayoutInternal (deal : SolPayoutDeal) (payouts : List PayoutRow)
    (platformBalance : ℤ) : Except String (List PayoutRow) :=
  if deal.status ≠ .Completed then
    .error "Deal must be Completed before releasing escrow"
  else
    match deal.creator_wallet with
    | none => .error "Creator has not connected Solana wallet"
    | some _ =>
      let lamports := jsRound (deal.amount * 1000000000)
      if platformBalance < lamports + solReserve then
        .error "Insufficient platform balance"
      else
        .ok (payouts ++ [{ deal_id := deal.id, method := "Solana", status := "Completed"
                           amount := deal.amount }])

/-! ## `processRefund` (index.ts, lines 1399–1520) -/

/-- Outcome of the `processRefund` helper in index.ts. -/
inductive RefundOutcome
  | skippedNoPayment
  | alreadyCompleted
  | alreadyProcessing
  | solanaTriggered
  | stripeTriggered
  deriving DecidableEq, Repr

/-- `processRefund`, index.ts lines 1399–1463: it first looks up the
`escrow_events` row with `event_type = 'FundEscrow'` for the deal and RETURNS
WITHOUT REFUNDING when none exists; then it short-circuits on an existing
refund in status `completed` or `processing`; otherwise it dispatches by the
recorded payment method. -/
def processRefund (events : List EscrowEvent) (refunds : List RefundRow)
    (dealId : String) : RefundOutcome :=
  match events.find? fun e => e.deal_id = dealId ∧ e.event_type = "FundEscrow" with
  | none => .skippedNoPayment
  | some escrow =>
    match refunds.find? fun r => r.deal_id = dealId with
    | some r =>
      if r.status = "completed" then .alreadyCompleted
      else if r.status = "processing" then .alreadyProcessing
      else if jsOrStr escrow.payment_method "stripe" = "solana" then .solanaTriggered
      else .stripeTriggered
    | none =>
      if jsOrStr escrow.payment_method "stripe" = "solana" then .solanaTriggered
      else .stripeTriggered

/-! ## Verification schedules -/

/-- A `verification_schedules` row (columns the embedded code writes). -/
structure ScheduleRow where
  deal_id : String
  scheduled_at : ℚ
  check_type : String
  status : String
  deriving DecidableEq, Repr

/-- `update({status: s}).eq('deal_id', dealId).eq('status', 'pending')`:
set every pending schedule of the deal to `s`. -/
def markPending (rows : List ScheduleRow) (dealId : String) (s : String) : List ScheduleRow :=
  rows.map fun r =>
    if r.deal_id = dealId ∧ r.status = "pending" then { r with status := s } else r

/-! ## Duration-completion sweep (`processVerificationCompletion`,
index.ts lines 1072–1238) -/

/-- The columns the sweep selects per candidate deal.
`orchestrator_score` is `orchestrator_result?.data?.analysis?.overall_score`,
the only part of the stored blob the sweep reads; `duration_hours` is the
`proof_specs(duration_hours)` relation value. -/
structure SweepDeal where
  id : String
  status : DealStatus
  posted_at : Option ℚ
  last_verification_at : Option ℚ
  verification_score : Option ℚ
  orchestrator_score : Option ℚ
  duration_hours : Option ℚ
  failure_reason : Option String
  deriving DecidableEq, Repr

/-- The sweep's candidate filter (index.ts lines 1078–1092): deals with
`status = 'Verifying'`, `last_verification_at` not null, `posted_at` not null. -/
def sweepSelects (d : SweepDeal) : Bool :=
  d.status = .Verifying && d.last_verification_at.isSome && d.posted_at.isSome

/-- `proofSpecs?.duration_hours || 24` (index.ts line 1114). -/
def sweepDurationHours (d : SweepDeal) : ℚ := jsOrNum d.duration_hours 24

/-- `completionTime = posted_at + durationHours * 3600000` ms
(index.ts lines 1115–1116). -/
def sweepCompletionTime (d : SweepDeal) (postedAt : ℚ) : ℚ :=
  postedAt + sweepDurationHours d * 3600000

/-- `hasVerificationSuccess` (index.ts lines 1133–1134). -/
def hasVerificationSuccess (d : SweepDeal) : Bool :=
  jsGe d.verification_score 80 || jsGe d.orchestrator_score 80

/-- The failure reason the sweep writes (index.ts line 1191). -/
def durationFailureReason (durationHours : ℚ) : String :=
  "Duration completed (" ++ toString durationHours ++ "h) without successful verification"

/-- Result of processing one candidate deal in the sweep. -/
structure SweepOutcome where
  deal : SweepDeal
  schedules : List ScheduleRow
  payoutTriggered : Bool
  refundCalled : Bool
  deriving DecidableEq, Repr

/-- One iteration of the sweep loop (index.ts lines 1109–1223) on a deal, with
the candidate filter made explicit: a deal the query does not select is
untouched.  On `now ≥ completionTime`:
success (score ≥ 80) ⇒ status `Completed`, pending schedules `completed`,
`processCreatorPayout` invoked; otherwise status `Failed` with the duration
failure reason, pending schedules `cancelled`, `processRefund` invoked.
On `now < completionTime`: no write at all. -/
def sweepStep (now : ℚ) (d : SweepDeal) (schedules : List ScheduleRow) : SweepOutcome :=
  if ¬ sweepSelects d then
    { deal := d, schedules := schedules, payoutTriggered := false, refundCalled := false }
  else
    match d.posted_at with
    | none =>
      { deal := d, schedules := schedules, payoutTriggered := false, refundCalled := false }
    | some postedAt =>
      if sweepCompletionTime d postedAt ≤ now then
        if hasVerificationSuccess d then
          { deal := { d with status := .Completed }
            schedules := markPending schedules d.id "completed"
            payoutTriggered := true
            refundCalled := false }
        else
          { deal := { d with status := .Failed,
                             failure_reason := some (durationFailureReason (sweepDurationHours d)) }
            schedules := markPending schedules d.id "cancelled"
            payoutTriggered := false
            refundCalled := true }
      else
        { deal := d, schedules := schedules, payoutTriggered := false, refundCalled := false }

/-! ## Schedule ladder (submit-post handler, part_005 lines 1004–1079) -/

/-- Interval selection by total duration (part_005 lines 1010–1020). -/
def checkIntervalHours (durationHours : ℚ) : ℚ :=
  if durationHours ≤ 1 / 10 then 278 / 10000
  else if durationHours ≤ 24 then 4
  else if durationHours ≤ 72 then 12
  else 24

/-- The `while (nextCheck < deadline)` loop (part_005 lines 1046–1056),
emitting periodic rows at `start + interval, start + 2·interval, …` strictly
before the deadline.  `fuel` bounds the unrolling; any fuel at least the
number of steps reproduces the loop exactly. -/
def periodicRows (dealId : String) (start deadline interval : ℚ) : Nat → List ScheduleRow
  | 0 => []
  | n + 1 =>
    let t := start + interval
    if t < deadline then
      { deal_id := dealId, scheduled_at := t, check_type := "periodic", status := "pending" }
        :: periodicRows dealId t deadline interval n
    else []

/-- The full ladder the submit-post handler inserts: one `initial` row at
`now`, the periodic rows, and one `final` row exactly at the deadline
(part_005 lines 1029–1076). -/
def buildLadder (dealId : String) (now deadline durationRead : ℚ) (fuel : Nat) :
    List ScheduleRow :=
  let interval := checkIntervalHours durationRead * 3600000
  { deal_id := dealId, scheduled_at := now, check_type := "initial", status := "pending" }
    :: (periodicRows dealId now deadline interval fuel
        ++ [{ deal_id := dealId, scheduled_at := deadline, check_type := "final"
              status := "pending" }])

/-- The duration value the submit-post handler actually reads
(part_005 line 1007): `updateData.proof_specs?.duration_hours`, where
`updateData` is the row returned by
`update({...}).eq(...).select('*')` on `deals` — `select('*')` returns only
the deal's own columns, never the `proof_specs` relation, so this value is
absent for every deal. -/
def submitPostProofSpecDuration : Option ℚ := none

/-- The ladder as built by the handler: the duration fed to the interval
selection is `updateData.proof_specs?.duration_hours || 24`. -/
def submitPostLadder (dealId : String) (now deadline : ℚ) (fuel : Nat) : List ScheduleRow :=
  buildLadder dealId now deadline (jsOrNum submitPostProofSpecDuration 24) fuel

/-! ## Cancel handler (part_005, lines 1450–1478) -/

/-- Result of the cancel handler: the updated row if the filter matched, and
whether any refund was triggered (the handler body contains no settlement
call at all, so this is always `false`). -/
structure CancelOutcome where
  deal : Option Deal
  refundTriggered : Bool
  deriving DecidableEq, Repr

/-- The cancel-deal handler: `update({status:'Cancelled', cancelled_at:now})`
keyed on the deal id and `advertiser_id = user OR creator_id = user`.  There
is NO condition on the deal's current status, and no refund logic. -/
def cancelDeal (deal : Deal) (userId : String) (now : ℚ) : CancelOutcome :=
  if deal.advertiser_id = userId ∨ deal.creator_id = some userId then
    { deal := some { deal with status := .Cancelled, cancelled_at := some now }
      refundTriggered := false }
  else
    { deal := none, refundTriggered := false }

/-! ## Sample fixtures used by the claim theorems -/

/-- A new-format callback payload with the given deal id, overall score,
optional proof-verification confidence and requirements_failed list. -/
def mkNewPayload (did : String) (score : ℚ) (conf : Option ℚ)
    (rf : Option (List String)) : CallbackPayload :=
  { status := some "completed"
    data := some
      { deal_id := some did
        analysis := some
          { overall_score := some score
            proof_verification := some
              { overall_confidence := conf, requirements_met := none
                requirements_failed := rf } } }
    deal_id := none, verification_status := none, overall_score := none
    error_message := none }

/-- A legacy-format callback payload reporting an orchestrator error. -/
def legacyErrorPayload : CallbackPayload :=
  { status := none, data := none, deal_id := some "deal-1"
    verification_status := some "error", overall_score := none, error_message := none }

/-- A callback body with every expected key missing. -/
def emptyPayload : CallbackPayload :=
  { status := none, data := none, deal_id := none, verification_status := none
    overall_score := none, error_message := none }

/-- A deal currently in `Verifying`. -/
def sampleVerifyingDeal : Deal :=
  { id := "deal-1", advertiser_id := "adv-1", creator_id := some "cre-1"
    status := .Verifying, failure_reason := none, verification_score := some 50
    orchestrator_result := none, last_verification_at := some 1000
    posted_at := some 0, cancelled_at := none }

/-- A deal already in the terminal status `Completed`. -/
def sampleCompletedDeal : Deal :=
  { id := "deal-1", advertiser_id := "adv-1", creator_id := some "cre-1"
    status := .Completed, failure_reason := none, verification_score := some 95
    orchestrator_result := none, last_verification_at := some 1000
    posted_at := some 0, cancelled_at := none }

/-- A sweep candidate posted at t=0 with a recorded score of 90 and a 24h
proof-spec duration (completion time 86400000 ms). -/
def vDeal90 : SweepDeal :=
  { id := "deal-1", status := .Verifying, posted_at := some 0
    last_verification_at := some 3600000, verification_score := some 90
    orchestrator_score := none, duration_hours := some 24, failure_reason := none }

/-- A sweep candidate posted at t=0 with a recorded score of 40 and a 24h
proof-spec duration. -/
def vDeal40 : SweepDeal :=
  { id := "deal-1", status := .Verifying, posted_at := some 0
    last_verification_at := some 3600000, verification_score := some 40
    orchestrator_score := none, duration_hours := some 24, failure_reason := none }

/-- A `Completed` deal with a connected creator wallet, as selected by
`processPayoutInternal`. -/
def solDeal50 : SolPayoutDeal :=
  { id := "deal-1", status := .Completed, amount := 50, creator_wallet := some "wallet-1" }

/-- The payout row `processPayoutInternal` records for `solDeal50`. -/
def payoutRow50 : PayoutRow :=
  { deal_id := "deal-1", method := "Solana", status := "Completed", amount := 50 }

/-! ## Claim theorems -/

/-- C1: the claim asserts both settlement executors short-circuit on an
existing completed/processing record, so two calls yield exactly one
non-failed record.  The payout executor `processPayoutInternal`
(part_006, lines 362–472) performs NO such check: calling it twice for the
same `Completed` deal records TWO payout rows with status `Completed`,
i.e. two non-failed Payout records for one deal.  This theorem evaluates the
embedded executor at that failing input. -/
theorem payout_executor_not_idempotent :
    processPayoutInternal solDeal50 [] 1000000000000 = .ok [payoutRow50] ∧
    processPayoutInternal solDeal50 [payoutRow50] 1000000000000 =
      .ok [payoutRow50, payoutRow50] ∧
    (nonFailedPayouts [payoutRow50, payoutRow50] "deal-1").length = 2 := by
  refine ⟨?_, ?_, by decide⟩ <;>
    norm_num [processPayoutInternal, solDeal50, payoutRow50, jsRound, solReserve]

/-- C2: the claim asserts a callback for a deal no longer in `Verifying`
leaves every deal field unchanged.  The handler (part_002, lines 414–424 and
543–568) never checks the current status: its update is keyed on the deal id
alone.  A completed-outcome callback with score 90 for a deal already in
`Completed` rewrites the deal — status back to `Verifying`,
`verification_score`, `last_verification_at` and `orchestrator_result`
overwritten — and is answered with a success response. -/
theorem stale_callback_rewrites_completed_deal :
    sampleCompletedDeal.status = .Completed ∧
    (callbackHandler (some sampleCompletedDeal) (mkNewPayload "deal-1" 90 none none)
        5000 false).deal =
      some { sampleCompletedDeal with
               status := .Verifying
               orchestrator_result := some (mkNewPayload "deal-1" 90 none none)
               last_verification_at := some 5000
               verification_score := some 90 } ∧
    (callbackHandler (some sampleCompletedDeal) (mkNewPayload "deal-1" 90 none none)
        5000 false).response = .ok .Verifying 90 := by
  refine ⟨rfl, ?_, ?_⟩ <;> rfl

/-- C3: the claim asserts the duration sweep, on an expired deal without
verification success, sets `Failed` with the duration failure reason, cancels
pending schedules, and triggers a refund of the escrowed funds.  The sweep
does write `Failed` (with reason `Duration completed (24h) without successful
verification`, not the exact string of the claim) and cancels schedules and
calls `processRefund` — but `processRefund` (index.ts, lines 1409–1420) looks
up the escrow event with `event_type = FundEscrow`, while the funding
handlers only ever write `event_type = Created` (part_006, lines 326–340), so
the refund is always skipped and no funds are returned. -/
theorem duration_fail_refund_skipped :
    sweepStep 90000000 vDeal40
        [{ deal_id := "deal-1", scheduled_at := 86400000, check_type := "final"
           status := "pending" }] =
      { deal := { vDeal40 with
                    status := .Failed
                    failure_reason :=
                      some "Duration completed (24h) without successful verification" }
        schedules := [{ deal_id := "deal-1", scheduled_at := 86400000, check_type := "final"
                        status := "cancelled" }]
        payoutTriggered := false
        refundCalled := true } ∧
    (fundEscrowEvent "deal-1" 51).event_type = "Created" ∧
    processRefund [fundEscrowEvent "deal-1" 51] [] "deal-1" = .skippedNoPayment := by
  refine ⟨?_, rfl, rfl⟩
  norm_num [sweepStep, sweepSelects, sweepCompletionTime, sweepDurationHours, jsOrNum,
    vDeal40, hasVerificationSuccess, jsGe, durationFailureReason, markPending]
  rfl

/-- C4: duration gating.  A `Verifying` deal with a recorded score of at
least 80 (for example 90, as exercised by the witness) is left
untouched by the sweep while `now < posted_at + duration_hours`; once
`now ≥ posted_at + duration_hours` the sweep sets it `Completed`, marks its
pending schedules `completed` and triggers the creator payout — and the
updated deal no longer matches the sweep candidate filter, so this happens
exactly once. -/
theorem duration_gating_completion (now postedAt s : ℚ) (rows : List ScheduleRow)
    (d : SweepDeal) (hs : d.status = .Verifying) (hscore : d.verification_score = some s)
    (hge80 : 80 ≤ s) (hpost : d.posted_at = some postedAt)
    (hlast : d.last_verification_at.isSome) :
    (now < sweepCompletionTime d postedAt →
      sweepStep now d rows =
        { deal := d, schedules := rows, payoutTriggered := false, refundCalled := false }) ∧
    (sweepCompletionTime d postedAt ≤ now →
      sweepStep now d rows =
        { deal := { d with status := .Completed }
          schedules := markPending rows d.id "completed"
          payoutTriggered := true, refundCalled := false } ∧
      sweepSelects { d with status := .Completed } = false) := by
  have hsel : sweepSelects d = true := by
    simp [sweepSelects, hs, hlast, hpost]
  constructor
  · intro hlt
    have hn : ¬ (sweepCompletionTime d postedAt ≤ now) := not_le.mpr hlt
    simp [sweepStep, hsel, hpost, hn]
  · intro hge
    have hsucc : hasVerificationSuccess d = true := by
      simp [hasVerificationSuccess, jsGe, hscore, hge80]
    exact ⟨by simp [sweepStep, hsel, hpost, hge, hsucc], by simp [sweepSelects]⟩

/-- C4 witness: the theorem applied to the score-90 deal posted at t=0 with a
24h duration, at a sweep time of 90000000 ms (25h). -/
theorem duration_gating_completion_witness :
    ((90000000 : ℚ) < sweepCompletionTime vDeal90 0 →
      sweepStep 90000000 vDeal90 [] =
        { deal := vDeal90, schedules := [], payoutTriggered := false
          refundCalled := false }) ∧
    (sweepCompletionTime vDeal90 0 ≤ 90000000 →
      sweepStep 90000000 vDeal90 [] =
        { deal := { vDeal90 with status := .Completed }
          schedules := markPending [] vDeal90.id "completed"
          payoutTriggered := true, refundCalled := false } ∧
      sweepSelects { vDeal90 with status := .Completed } = false) :=
  duration_gating_completion 90000000 0 90 [] vDeal90 rfl rfl (by norm_num) rfl rfl

/-- C5: requirement failure dominates score.  For every completed-outcome
callback whose `requirements_failed` list is non-empty, the decision is
`Failed` with the failure reason built from the joined missing requirements,
for every overall score — never the stay-`Verifying` success branch. -/
theorem requirements_failure_dominates_score (b : CallbackPayload) (score : ℚ)
    (l : List String) (hl : requirementsFailedOf b = l) (hne : l ≠ []) :
    decideCallback b "completed" score =
      { finalStatus := .Failed
        failureReason :=
          some ("Verification requirements not met: " ++ String.intercalate ", " l)
        shouldCreateHITLReview := false } ∧
    (decideCallback b "completed" score).finalStatus ≠ .Verifying := by
  have h1 : decideCallback b "completed" score =
      { finalStatus := .Failed
        failureReason :=
          some ("Verification requirements not met: " ++ String.intercalate ", " l)
        shouldCreateHITLReview := false } := by
    unfold decideCallback
    simp [hl, hne]
  exact ⟨h1, by rw [h1]; simp⟩

/-- C5 witness: a completed callback with overall score 95 and one failed
requirement decides `Failed`. -/
theorem requirements_failure_dominates_score_witness :
    requirementsFailedOf (mkNewPayload "deal-1" 95 (some 90) (some ["text_proof"])) =
      ["text_proof"] ∧
    decideCallback (mkNewPayload "deal-1" 95 (some 90) (some ["text_proof"]))
        "completed" 95 =
      { finalStatus := .Failed
        failureReason :=
          some ("Verification requirements not met: " ++
            String.intercalate ", " ["text_proof"])
        shouldCreateHITLReview := false } ∧
    (decideCallback (mkNewPayload "deal-1" 95 (some 90) (some ["text_proof"]))
        "completed" 95).finalStatus ≠ .Verifying :=
  ⟨rfl,
    requirements_failure_dominates_score (mkNewPayload "deal-1" 95 (some 90)
      (some ["text_proof"])) 95 ["text_proof"] rfl (by decide)⟩

/-- C6: the claim asserts an error-outcome callback leaves the deal
`Verifying`, records score 0 and the orchestrator result, triggers no
settlement, and creates exactly one review row with reason ORCHESTRATOR_ERROR
and high severity.  The status/score/audit and no-settlement parts hold, but
the handler has two review-creation sites: with `HITL_ENABLED = true` it
inserts TWO rows (a direct insert with no reason code, lines 629–637, plus
the HITLService row with reason ORCHESTRATOR_ERROR, lines 728–741); with
HITL disabled it inserts exactly one row that records no reason code at all. -/
theorem error_callback_review_rows :
    (callbackHandler (some sampleVerifyingDeal) legacyErrorPayload 5000 true).response =
      .ok .Verifying 0 ∧
    (callbackHandler (some sampleVerifyingDeal) legacyErrorPayload 5000 true).deal =
      some { sampleVerifyingDeal with
               status := .Verifying
               orchestrator_result := some legacyErrorPayload
               last_verification_at := some 5000
               verification_score := some 0 } ∧
    (callbackHandler (some sampleVerifyingDeal) legacyErrorPayload 5000 true).refundTriggered
      = false ∧
    (callbackHandler (some sampleVerifyingDeal) legacyErrorPayload 5000 true).reviews =
      [{ deal_id := "deal-1", reason_code := none, priority := "high" },
       { deal_id := "deal-1", reason_code := some "ORCHESTRATOR_ERROR", priority := "high" }] ∧
    (callbackHandler (some sampleVerifyingDeal) legacyErrorPayload 5000 false).reviews =
      [{ deal_id := "deal-1", reason_code := none, priority := "high" }] := by
  refine ⟨rfl, rfl, rfl, ?_, ?_⟩ <;> decide

set_option maxRecDepth 4000 in
/-- C7: the claim asserts the periodic interval is chosen from the total
duration (≤24h → 4h, ≤72h → 12h, else daily), so a 48h deal gets 12h spacing.
The interval table in the source does map 48 to 12 — but the handler reads
the duration from the row returned by `update(...).select('*')` on `deals`,
which cannot contain the `proof_specs` relation, so the value read is always
absent and the `|| 24` fallback applies: every deal, including a 48h one,
gets the 4h interval.  The ladder for a 48h deal has periodic rows at 4h and
8h, not 12h apart. -/
theorem schedule_ladder_interval_ignores_duration :
    checkIntervalHours 48 = 12 ∧
    submitPostProofSpecDuration = none ∧
    submitPostLadder "deal-1" 0 172800000 20 = buildLadder "deal-1" 0 172800000 24 20 ∧
    (submitPostLadder "deal-1" 0 172800000 20).take 3 =
      [{ deal_id := "deal-1", scheduled_at := 0, check_type := "initial", status := "pending" },
       { deal_id := "deal-1", scheduled_at := 14400000, check_type := "periodic"
         status := "pending" },
       { deal_id := "deal-1", scheduled_at := 28800000, check_type := "periodic"
         status := "pending" }] := by
  refine ⟨by norm_num [checkIntervalHours], rfl, rfl, ?_⟩
  norm_num [submitPostLadder, buildLadder, periodicRows, checkIntervalHours, jsOrNum,
    submitPostProofSpecDuration]

/-- C8: malformed-callback resilience.  The normalizer is a total function:
on a payload with every expected key missing it yields the initial values
outcome `error` and score 0, and the handler returns the 400
missing-deal-id acknowledgment — no exception propagates and no state is
touched, whether or not a deal is stored. -/
theorem malformed_callback_no_throw :
    parseCallback emptyPayload =
      { dealId := none, verificationStatus := "error", overallScore := 0 } ∧
    callbackHandler none emptyPayload 0 false =
      { response := .badRequest "Missing deal_id in callback", deal := none
        reviews := [], refundTriggered := false } ∧
    callbackHandler (some sampleVerifyingDeal) emptyPayload 0 true =
      { response := .badRequest "Missing deal_id in callback"
        deal := some sampleVerifyingDeal, reviews := [], refundTriggered := false } := by
  refine ⟨rfl, rfl, rfl⟩

/-- C9 counterexample: the cancel handler has no status condition, so a deal
already in the terminal status `Completed` is NOT left unchanged — it is
overwritten to `Cancelled`, refuting the claim as stated. -/
theorem cancel_overwrites_terminal_deal :
    sampleCompletedDeal.status = .Completed ∧
    (cancelDeal sampleCompletedDeal "adv-1" 5000).deal ≠ some sampleCompletedDeal ∧
    (cancelDeal sampleCompletedDeal "adv-1" 5000).deal =
      some { sampleCompletedDeal with status := .Cancelled, cancelled_at := some 5000 } := by
  refine ⟨rfl, ?_, rfl⟩
  decide

/-- C9 amended: the Cancel operation, invoked by the advertiser or the
creator of the deal, sets status to `Cancelled` and records the cancellation
timestamp and triggers no automatic refund — regardless of the current
status, including deals already in a terminal status. -/
theorem cancel_any_status (deal : Deal) (userId : String) (now : ℚ)
    (hauth : deal.advertiser_id = userId ∨ deal.creator_id = some userId) :
    cancelDeal deal userId now =
      { deal := some { deal with status := .Cancelled, cancelled_at := some now }
        refundTriggered := false } := by
  unfold cancelDeal
  rw [if_pos hauth]

/-- C9 witness: the creator cancels the sample completed deal. -/
theorem cancel_any_status_witness :
    (sampleCompletedDeal.advertiser_id = "cre-1" ∨
      sampleCompletedDeal.creator_id = some "cre-1") ∧
    cancelDeal sampleCompletedDeal "cre-1" 7000 =
      { deal := some { sampleCompletedDeal with
                         status := .Cancelled, cancelled_at := some 7000 }
        refundTriggered := false } :=
  ⟨Or.inr rfl, cancel_any_status sampleCompletedDeal "cre-1" 7000 (Or.inr rfl)⟩

/-- C10: confidence defaulting.  For a completed-outcome callback with no
failed requirements and score below 60: if the payload carries no
`overall_confidence`, the score is substituted for the confidence, which is
then below 70, so the deal stays `Verifying` and is routed to HITL review;
the immediate `Failed` branch for a sub-60 score is reachable only when the
payload explicitly carries a confidence of at least 70. -/
theorem confidence_default_routes_low_score_to_hitl (b : CallbackPayload) (score : ℚ)
    (hreq : requirementsFailedOf b = []) (hs : score < 60) :
    (b.pvConfidence = none →
      decideCallback b "completed" score =
        { finalStatus := .Verifying, failureReason := none
          shouldCreateHITLReview := true }) ∧
    ((decideCallback b "completed" score).finalStatus = .Failed →
      ∃ v, b.pvConfidence = some v ∧ 70 ≤ v) := by
  have h80 : ¬ (80 ≤ score) := by linarith
  constructor
  · intro hc
    have hconf : confidenceOf b score < 70 := by
      simp only [confidenceOf, jsOrNum, hc]
      linarith
    have hcond : 60 ≤ score ∨ confidenceOf b score < 70 := Or.inr hconf
    unfold decideCallback
    simp [hreq, h80, hcond]
  · intro hfail
    by_contra hnex
    push_neg at hnex
    have hconf : confidenceOf b score < 70 := by
      simp only [confidenceOf, jsOrNum]
      cases hcv : b.pvConfidence with
      | none => simpa using (by linarith : score < 70)
      | some v =>
        by_cases hv0 : v = 0
        · simp [hv0]
          linarith
        · simp [hv0]
          exact hnex v hcv
    have hdec : decideCallback b "completed" score =
        { finalStatus := .Verifying, failureReason := none
          shouldCreateHITLReview := true } := by
      unfold decideCallback
      simp [hreq, h80, Or.inr hconf]
    rw [hdec] at hfail
    exact absurd hfail (by decide)

/-- C10 witness: a completed callback with score 40, empty
`requirements_failed` and no confidence field stays `Verifying` and is
routed to HITL. -/
theorem confidence_default_routes_low_score_to_hitl_witness :
    (requirementsFailedOf (mkNewPayload "deal-1" 40 none (some [])) = [] ∧
      (40 : ℚ) < 60) ∧
    ((mkNewPayload "deal-1" 40 none (some [])).pvConfidence = none →
      decideCallback (mkNewPayload "deal-1" 40 none (some [])) "completed" 40 =
        { finalStatus := .Verifying, failureReason := none
          shouldCreateHITLReview := true }) ∧
    ((decideCallback (mkNewPayload "deal-1" 40 none (some []))
        "completed" 40).finalStatus = .Failed →
      ∃ v, (mkNewPayload "deal-1" 40 none (some [])).pvConfidence = some v ∧ 70 ≤ v) :=
  ⟨⟨rfl, by norm_num⟩,
    (confidence_default_routes_low_score_to_hitl (mkNewPayload "deal-1" 40 none (some []))
      40 rfl (by norm_num)).1,
    (confidence_default_routes_low_score_to_hitl (mkNewPayload "deal-1" 40 none (some []))
      40 rfl (by norm_num)).2⟩

end TrustDog
